import Mathlib

/-!
Verification of `quick_plot.py` (Traffic-flow-analysis).

The script reads `output/<scenario_name>.csv` into a pandas DataFrame,
computes four scalar statistics, renders a figure, and saves it as
`output/<scenario_name>_plot.png`.  The `main` entry point validates the
argument count, creates the `output` directory, and maps the boolean
result to a process exit code; uncaught exceptions are turned into exit
code 1 by the top-level handler.

We embed the data model (a DataFrame as a list of named numeric columns,
with values as rationals), the statistics computation of lines 33-36
(including Python evaluation order and the exceptions pandas raises on
missing columns / empty series), the filesystem interaction (paths are
component lists, the store maps paths to abstract file contents), and the
control flow of `plot_traffic_data`, `main` and the `__main__` handler.
-/

namespace QuickPlot

/-- A pandas DataFrame, modelled as an ordered list of named columns of
rational values (`pd.read_csv` yields a rectangular numeric table here). -/
structure DataFrame where
  cols : List (String × List ℚ)
deriving DecidableEq, Repr

/-- Column access `df[c]`: the first column whose name is `c`; `none`
models the `KeyError` pandas raises when the column is absent. -/
def DataFrame.col (df : DataFrame) (c : String) : Option (List ℚ) :=
  (df.cols.find? (fun p => p.1 == c)).map (fun p => p.2)

/-- Number of rows: the length of the first column (read_csv output is
rectangular; an empty column list means zero rows). -/
def DataFrame.nRows (df : DataFrame) : Nat :=
  match df.cols with
  | [] => 0
  | c :: _ => c.2.length

/-- `df.empty` in pandas: true when the frame has no rows (or no columns). -/
def DataFrame.isEmpty (df : DataFrame) : Bool :=
  df.nRows == 0

/-- Rectangularity: every column has `df.nRows` entries.  `pd.read_csv`
always produces rectangular frames. -/
def DataFrame.Rect (df : DataFrame) : Prop :=
  ∀ p ∈ df.cols, p.2.length = df.nRows

/-- `Series.max()`: the maximum of the values (the `[]` case is never used
on the returning path: pandas gives `NaN` there and the code raises before
using it). -/
def seriesMax : List ℚ → ℚ
  | [] => 0
  | [x] => x
  | x :: y :: t => max x (seriesMax (y :: t))

/-- `Series.min()`: the minimum of the values. -/
def seriesMin : List ℚ → ℚ
  | [] => 0
  | [x] => x
  | x :: y :: t => min x (seriesMin (y :: t))

/-- Position of the first occurrence of `a` in the list. -/
def firstIdxOf (a : ℚ) : List ℚ → Option Nat
  | [] => none
  | x :: t => if x = a then some 0 else (firstIdxOf a t).map (fun i => i + 1)

/-- `Series.idxmax()`: the label of the first occurrence of the maximum
(with the default RangeIndex the label is the row position); `none` models
the `ValueError` raised on an empty series. -/
def idxmax (l : List ℚ) : Option Nat :=
  firstIdxOf (seriesMax l) l

/-- The Python exceptions the statistics code can raise. -/
inductive PyError where
  | keyError
  | valueError
  | indexError
  | parseError
deriving DecidableEq, Repr

/-- The four scalar statistics of lines 33-36. -/
structure Stats where
  q_max : ℚ
  k_opt : ℚ
  v_free : ℚ
  k_jam : ℚ
deriving DecidableEq, Repr

/-- Lines 33-36 of `plot_traffic_data`, in Python evaluation order:

* `q_max = df['q'].max()` — `KeyError` if `q` is absent;
* `k_opt = df.loc[df['q'].idxmax(), 'k']` — `ValueError` on an empty
  series, `KeyError` if `k` is absent or the label is out of range;
* `v_free = df['v'].iloc[0] if not df.empty else 0` — the condition is
  evaluated first, so an empty frame gives `0` without touching `df['v']`;
* `k_jam = df.loc[df['v'] <= 0.1, 'k'].min() if not df[df['v'] <= 0.1].empty
  else df['k'].max()`. -/
def computeStats (df : DataFrame) : Except PyError Stats :=
  match df.col "q" with
  | none => Except.error PyError.keyError
  | some qs =>
    let q_max := seriesMax qs
    match idxmax qs with
    | none => Except.error PyError.valueError
    | some idx =>
      match df.col "k" with
      | none => Except.error PyError.keyError
      | some ks =>
        match ks.get? idx with
        | none => Except.error PyError.keyError
        | some k_opt =>
          let v_free_res : Except PyError ℚ :=
            if df.isEmpty then Except.ok 0
            else
              match df.col "v" with
              | none => Except.error PyError.keyError
              | some vs =>
                match vs.get? 0 with
                | none => Except.error PyError.indexError
                | some v => Except.ok v
          match v_free_res with
          | Except.error e => Except.error e
          | Except.ok v_free =>
            match df.col "v" with
            | none => Except.error PyError.keyError
            | some vs =>
              let jam_ks :=
                ((vs.zip ks).filter (fun p => p.1 ≤ (1 : ℚ) / 10)).map
                  (fun p => p.2)
              let k_jam :=
                if jam_ks.isEmpty then seriesMax ks else seriesMin jam_ks
              Except.ok ⟨q_max, k_opt, v_free, k_jam⟩

/-- Abstract file contents: a CSV that parses to a frame, contents that
`pd.read_csv` fails on, or a rendered PNG image. -/
inductive File where
  | csv (df : DataFrame)
  | unreadable
  | png
deriving DecidableEq, Repr

/-- `pd.read_csv` on file contents: succeed on a parseable CSV, raise
(an exception the `try` at lines 26-30 catches) otherwise. -/
def read_csv : File → Except PyError DataFrame
  | File.csv df => Except.ok df
  | File.unreadable => Except.error PyError.parseError
  | File.png => Except.error PyError.parseError

/-- The filesystem: files keyed by path (a list of components) and a set
of existing directories. -/
structure FS where
  files : List String → Option File
  dirs : List String → Bool

/-- `os.path.exists` / `open` for reading. -/
def FS.readFile (fs : FS) (p : List String) : Option File :=
  fs.files p

/-- Writing a file (`plt.savefig`) replaces the entry at the path. -/
def FS.writeFile (fs : FS) (p : List String) (f : File) : FS :=
  { fs with files := fun q => if q = p then some f else fs.files q }

/-- `os.makedirs(d, exist_ok=True)`. -/
def FS.mkdir (fs : FS) (d : List String) : FS :=
  { fs with dirs := fun q => if q = d then true else fs.dirs q }

/-- A filesystem is well formed when a file under `output/` can only
exist if the `output` directory exists. -/
def FS.WF (fs : FS) : Prop :=
  ∀ s : String, (fs.files ["output", s]).isSome → fs.dirs ["output"] = true

/-- `f"output/{scenario_name}.csv"`. -/
def csv_file (scenario_name : String) : List String :=
  ["output", scenario_name ++ ".csv"]

/-- `f"output/{scenario_name}_plot.png"`. -/
def plot_file (scenario_name : String) : List String :=
  ["output", scenario_name ++ "_plot.png"]

/-- Result of calling `plot_traffic_data`: a normal return with a boolean
and the resulting filesystem, or an uncaught exception. -/
inductive PlotOutcome where
  | ret (success : Bool) (fs : FS)
  | exc (fs : FS)

/-- `plot_traffic_data(scenario_name)`:
check existence of the CSV (return `False` when missing), read it inside
`try` (return `False` on a parse failure), compute the statistics (any
exception here escapes the function), then `plt.savefig(plot_file)` —
which raises `FileNotFoundError` if the target directory does not exist —
and return `True`. -/
def plot_traffic_data (fs : FS) (scenario_name : String) : PlotOutcome :=
  match fs.readFile (csv_file scenario_name) with
  | none => PlotOutcome.ret false fs
  | some f =>
    match read_csv f with
    | Except.error _ => PlotOutcome.ret false fs
    | Except.ok df =>
      match computeStats df with
      | Except.error _ => PlotOutcome.exc fs
      | Except.ok _ =>
        if fs.dirs ["output"] then
          PlotOutcome.ret true (fs.writeFile (plot_file scenario_name) File.png)
        else
          PlotOutcome.exc fs

/-- Result of `main()`: an integer return code, or an uncaught exception. -/
inductive MainOutcome where
  | ret (code : Nat) (fs : FS)
  | exc (fs : FS)

/-- `main()`: require exactly one positional argument (`len(sys.argv) != 2`
returns 1), create the `output` directory, call `plot_traffic_data`, and
return `0 if success else 1`. -/
def main (fs : FS) (argv : List String) : MainOutcome :=
  if argv.length ≠ 2 then MainOutcome.ret 1 fs
  else
    let scenario_name := argv.getD 1 ""
    let fs1 := fs.mkdir ["output"]
    match plot_traffic_data fs1 scenario_name with
    | PlotOutcome.ret true fs2 => MainOutcome.ret 0 fs2
    | PlotOutcome.ret false fs2 => MainOutcome.ret 1 fs2
    | PlotOutcome.exc fs2 => MainOutcome.exc fs2

/-- The `if __name__ == "__main__"` block: run `main`, pass its return
value to `sys.exit`, and map any uncaught exception to exit code 1. -/
def run_script (fs : FS) (argv : List String) : Nat × FS :=
  match main fs argv with
  | MainOutcome.ret c fs2 => (c, fs2)
  | MainOutcome.exc fs2 => (1, fs2)

/-- The filesystem state after a call to `plot_traffic_data`. -/
def PlotOutcome.toFS : PlotOutcome → FS
  | PlotOutcome.ret _ fs => fs
  | PlotOutcome.exc fs => fs

/-- The observable control-flow result of a call: `some b` for a normal
return of `b`, `none` for an uncaught exception. -/
def PlotOutcome.code : PlotOutcome → Option Bool
  | PlotOutcome.ret b _ => some b
  | PlotOutcome.exc _ => none

/-- The `k` values of the rows whose `v` value is at most `0.1`
(the boolean-mask selection of line 36). -/
def jamList (vs ks : List ℚ) : List ℚ :=
  ((vs.zip ks).filter (fun p => p.1 ≤ (1 : ℚ) / 10)).map (fun p => p.2)

/-! Concrete fixtures used to instantiate the theorems below. -/

/-- A small well-formed frame with columns `k`, `v`, `q`. -/
def dfW : DataFrame :=
  ⟨[("k", [10, 20]), ("v", [50, 25]), ("q", [100, 500])]⟩

/-- A frame that parses but lacks the `k` column. -/
def dfNoK : DataFrame :=
  ⟨[("v", [50]), ("q", [100])]⟩

/-- An empty filesystem: no files, no directories. -/
def fsEmpty : FS :=
  ⟨fun _ => none, fun _ => false⟩

/-- A filesystem holding a parseable CSV for scenario `sample`. -/
def fsGood : FS :=
  ⟨fun p => if p = csv_file "sample" then some (File.csv dfW) else none,
   fun d => d == ["output"]⟩

/-- A filesystem holding an unparseable file for scenario `sample`. -/
def fsBad : FS :=
  ⟨fun p => if p = csv_file "sample" then some File.unreadable else none,
   fun d => d == ["output"]⟩

/-- A filesystem whose CSV for scenario `sample` parses but lacks `k`. -/
def fsNoK : FS :=
  ⟨fun p => if p = csv_file "sample" then some (File.csv dfNoK) else none,
   fun d => d == ["output"]⟩

/-- The filesystem after a successful run on `fsGood`. -/
def fsGoodRun : FS :=
  (fsGood.mkdir ["output"]).writeFile (plot_file "sample") File.png

/-! Helper lemmas about the series operations. -/

theorem seriesMax_cons (x : ℚ) (t : List ℚ) (h : t ≠ []) :
    seriesMax (x :: t) = max x (seriesMax t) := by
  cases t with
  | nil => exact absurd rfl h
  | cons y u => rfl

theorem seriesMin_cons (x : ℚ) (t : List ℚ) (h : t ≠ []) :
    seriesMin (x :: t) = min x (seriesMin t) := by
  cases t with
  | nil => exact absurd rfl h
  | cons y u => rfl

theorem le_seriesMax {l : List ℚ} {x : ℚ} (h : x ∈ l) : x ≤ seriesMax l := by
  induction l with
  | nil => cases h
  | cons a t ih =>
    cases t with
    | nil =>
      rcases List.mem_singleton.mp h with rfl
      exact le_refl _
    | cons b u =>
      rw [seriesMax_cons a (b :: u) (List.cons_ne_nil b u)]
      rcases List.mem_cons.mp h with h1 | h2
      · exact h1 ▸ le_max_left _ _
      · exact le_trans (ih h2) (le_max_right _ _)

theorem seriesMax_mem {l : List ℚ} (h : l ≠ []) : seriesMax l ∈ l := by
  induction l with
  | nil => exact absurd rfl h
  | cons a t ih =>
    cases t with
    | nil => exact List.mem_singleton.mpr rfl
    | cons b u =>
      rw [seriesMax_cons a (b :: u) (List.cons_ne_nil b u)]
      rcases max_choice a (seriesMax (b :: u)) with h1 | h1
      · rw [h1]; exact List.mem_cons_self _ _
      · rw [h1]; exact List.mem_cons_of_mem _ (ih (List.cons_ne_nil b u))

theorem seriesMin_le {l : List ℚ} {x : ℚ} (h : x ∈ l) : seriesMin l ≤ x := by
  induction l with
  | nil => cases h
  | cons a t ih =>
    cases t with
    | nil =>
      rcases List.mem_singleton.mp h with rfl
      exact le_refl _
    | cons b u =>
      rw [seriesMin_cons a (b :: u) (List.cons_ne_nil b u)]
      rcases List.mem_cons.mp h with h1 | h2
      · exact h1 ▸ min_le_left _ _
      · exact le_trans (min_le_right _ _) (ih h2)

theorem seriesMin_mem {l : List ℚ} (h : l ≠ []) : seriesMin l ∈ l := by
  induction l with
  | nil => exact absurd rfl h
  | cons a t ih =>
    cases t with
    | nil => exact List.mem_singleton.mpr rfl
    | cons b u =>
      rw [seriesMin_cons a (b :: u) (List.cons_ne_nil b u)]
      rcases min_choice a (seriesMin (b :: u)) with h1 | h1
      · rw [h1]; exact List.mem_cons_self _ _
      · rw [h1]; exact List.mem_cons_of_mem _ (ih (List.cons_ne_nil b u))

theorem firstIdxOf_eq_some {a : ℚ} {l : List ℚ} (h : a ∈ l) :
    ∃ i, firstIdxOf a l = some i ∧ l.get? i = some a := by
  induction l with
  | nil => cases h
  | cons x t ih =>
    by_cases hx : x = a
    · exact ⟨0, by simp [firstIdxOf, hx], by simp [hx]⟩
    · have ht : a ∈ t := by
        rcases List.mem_cons.mp h with h1 | h2
        · exact absurd h1.symm hx
        · exact h2
      rcases ih ht with ⟨i, hi, hg⟩
      exact ⟨i + 1, by simp [firstIdxOf, hx, hi], by simpa using hg⟩

theorem idxmax_spec {l : List ℚ} (h : l ≠ []) :
    ∃ i, idxmax l = some i ∧ l.get? i = some (seriesMax l) := by
  rcases firstIdxOf_eq_some (seriesMax_mem h) with ⟨i, hi, hg⟩
  exact ⟨i, hi, hg⟩

/-! Evaluation of `computeStats` on a well-formed non-empty frame. -/

theorem computeStats_ok
    (df : DataFrame) (ks vs qs : List ℚ)
    (hk : df.col "k" = some ks) (hv : df.col "v" = some vs)
    (hq : df.col "q" = some qs)
    (hlk : ks.length = qs.length) (hlv : vs.length = qs.length)
    (hne : qs ≠ []) (hemp : df.isEmpty = false) :
    ∃ i k0 v0,
      idxmax qs = some i ∧
      qs.get? i = some (seriesMax qs) ∧
      ks.get? i = some k0 ∧
      vs.get? 0 = some v0 ∧
      computeStats df = Except.ok
        { q_max := seriesMax qs, k_opt := k0, v_free := v0,
          k_jam := if (jamList vs ks).isEmpty then seriesMax ks
                   else seriesMin (jamList vs ks) } := by
  rcases idxmax_spec hne with ⟨i, hi, hg⟩
  have hilt : i < qs.length := List.get?_eq_some.mp hg |>.1
  have hik : i < ks.length := hlk ▸ hilt
  have hv0lt : 0 < vs.length := by
    rw [hlv]
    exact List.length_pos.mpr hne
  refine ⟨i, ks.get ⟨i, hik⟩, vs.get ⟨0, hv0lt⟩, hi, hg, List.get?_eq_get hik,
    List.get?_eq_get hv0lt, ?_⟩
  simp only [computeStats, hq, hi, hk, hv, List.get?_eq_get hik,
    List.get?_eq_get hv0lt, hemp, Bool.false_eq_true, if_false, jamList]

/-! Lemmas relating the boolean-mask selection of line 36 to row indices. -/

theorem get?_zip_of_get? {l₁ l₂ : List ℚ} {i : Nat} {x y : ℚ}
    (h₁ : l₁.get? i = some x) (h₂ : l₂.get? i = some y) :
    (l₁.zip l₂).get? i = some (x, y) := by
  induction l₁ generalizing l₂ i with
  | nil => simp at h₁
  | cons a t ih =>
    cases l₂ with
    | nil => simp at h₂
    | cons b u =>
      cases i with
      | zero =>
        simp only [List.get?] at h₁ h₂
        cases h₁
        cases h₂
        rfl
      | succ j =>
        simpa using ih (by simpa using h₁) (by simpa using h₂)

theorem get?_of_get?_zip {l₁ l₂ : List ℚ} {i : Nat} {p : ℚ × ℚ}
    (h : (l₁.zip l₂).get? i = some p) :
    l₁.get? i = some p.1 ∧ l₂.get? i = some p.2 := by
  induction l₁ generalizing l₂ i with
  | nil => simp at h
  | cons a t ih =>
    cases l₂ with
    | nil => simp at h
    | cons b u =>
      cases i with
      | zero =>
        simp only [List.zip_cons_cons, List.get?] at h
        cases h
        exact ⟨rfl, rfl⟩
      | succ j =>
        simpa using ih (by simpa using h)

theorem mem_jamList {vs ks : List ℚ} {x : ℚ} :
    x ∈ jamList vs ks ↔
      ∃ i v, vs.get? i = some v ∧ ks.get? i = some x ∧ v ≤ (1 : ℚ) / 10 := by
  unfold jamList
  constructor
  · intro hx
    rcases List.mem_map.mp hx with ⟨p, hpf, hpx⟩
    rcases List.mem_filter.mp hpf with ⟨hpz, hple⟩
    rcases List.mem_iff_get?.mp hpz with ⟨i, hi⟩
    rcases get?_of_get?_zip hi with ⟨h1, h2⟩
    exact ⟨i, p.1, h1, hpx ▸ h2, of_decide_eq_true hple⟩
  · rintro ⟨i, v, h1, h2, h3⟩
    refine List.mem_map.mpr ⟨(v, x), List.mem_filter.mpr ⟨?_, ?_⟩, rfl⟩
    · exact List.mem_iff_get?.mpr ⟨i, get?_zip_of_get? h1 h2⟩
    · exact decide_eq_true h3

/-- On a rectangular frame, every column has `nRows` entries. -/
theorem col_length {df : DataFrame} {c : String} {l : List ℚ}
    (hrect : df.Rect) (h : df.col c = some l) : l.length = df.nRows := by
  unfold DataFrame.col at h
  cases hf : df.cols.find? (fun p => p.1 == c) with
  | none => rw [hf] at h; cases h
  | some p =>
    rw [hf] at h
    cases h
    exact hrect p (List.mem_of_find?_eq_some hf)

/-! The claims. -/

/-- C1: For every non-empty input table with numeric columns k, v, q, the
maximum-flow statistic reported by `plot_traffic_data` equals the maximum
of the q column, and the reported optimal density equals the k value of a
row at which q attains that maximum. -/
theorem C1_max_flow_and_optimal_density
    (df : DataFrame) (ks vs qs : List ℚ)
    (hk : df.col "k" = some ks) (hv : df.col "v" = some vs)
    (hq : df.col "q" = some qs)
    (hlk : ks.length = qs.length) (hlv : vs.length = qs.length)
    (hne : qs ≠ []) (hemp : df.isEmpty = false) :
    ∃ s : Stats, computeStats df = Except.ok s ∧
      s.q_max ∈ qs ∧ (∀ x ∈ qs, x ≤ s.q_max) ∧
      ∃ i, qs.get? i = some s.q_max ∧ ks.get? i = some s.k_opt := by
  rcases computeStats_ok df ks vs qs hk hv hq hlk hlv hne hemp with
    ⟨i, k0, v0, hi, hg, hki, hv0, hcs⟩
  exact ⟨_, hcs, seriesMax_mem hne, fun x hx => le_seriesMax hx, i, hg, hki⟩

theorem C1_witness :
    dfW.col "k" = some [10, 20] ∧ dfW.col "v" = some [50, 25] ∧
    dfW.col "q" = some [100, 500] ∧ dfW.isEmpty = false ∧
    (∃ s : Stats, computeStats dfW = Except.ok s ∧
      s.q_max ∈ ([100, 500] : List ℚ) ∧
      (∀ x ∈ ([100, 500] : List ℚ), x ≤ s.q_max) ∧
      ∃ i, ([100, 500] : List ℚ).get? i = some s.q_max ∧
        ([10, 20] : List ℚ).get? i = some s.k_opt) :=
  ⟨by decide, by decide, by decide, by decide,
   C1_max_flow_and_optimal_density dfW [10, 20] [50, 25] [100, 500]
     (by decide) (by decide) (by decide) rfl rfl (by decide) (by decide)⟩

/-- C2: For every non-empty input table, the jam-density statistic
computed by `plot_traffic_data` equals the minimum k among rows where
v ≤ 0.1; if no row has v ≤ 0.1, it equals the maximum of the k column. -/
theorem C2_jam_density
    (df : DataFrame) (ks vs qs : List ℚ)
    (hk : df.col "k" = some ks) (hv : df.col "v" = some vs)
    (hq : df.col "q" = some qs)
    (hlk : ks.length = qs.length) (hlv : vs.length = qs.length)
    (hne : qs ≠ []) (hemp : df.isEmpty = false) :
    ∃ s : Stats, computeStats df = Except.ok s ∧
      ((∃ i v, vs.get? i = some v ∧ v ≤ (1 : ℚ) / 10) →
        (∃ i v, vs.get? i = some v ∧ v ≤ (1 : ℚ) / 10 ∧
          ks.get? i = some s.k_jam) ∧
        ∀ i v k, vs.get? i = some v → ks.get? i = some k →
          v ≤ (1 : ℚ) / 10 → s.k_jam ≤ k) ∧
      ((∀ i v, vs.get? i = some v → ¬ v ≤ (1 : ℚ) / 10) →
        s.k_jam ∈ ks ∧ ∀ x ∈ ks, x ≤ s.k_jam) := by
  rcases computeStats_ok df ks vs qs hk hv hq hlk hlv hne hemp with
    ⟨i, k0, v0, hi, hg, hki, hv0, hcs⟩
  refine ⟨_, hcs, ?_, ?_⟩
  · rintro ⟨j, v, hj, hvle⟩
    have hjv : j < vs.length := (List.get?_eq_some.mp hj).1
    have hjk : j < ks.length := by
      rw [hlk]
      rw [hlv] at hjv
      exact hjv
    have hmem : ks.get ⟨j, hjk⟩ ∈ jamList vs ks :=
      mem_jamList.mpr ⟨j, v, hj, List.get?_eq_get hjk, hvle⟩
    have hnil : jamList vs ks ≠ [] := fun hn => by
      rw [hn] at hmem
      cases hmem
    have hje : (jamList vs ks).isEmpty = false := by
      cases hcase : jamList vs ks with
      | nil => exact absurd hcase hnil
      | cons a t => rfl
    constructor
    · rcases mem_jamList.mp (seriesMin_mem hnil) with ⟨i2, v2, h1, h2, h3⟩
      refine ⟨i2, v2, h1, h3, ?_⟩
      simpa [hje] using h2
    · intro i3 v3 k3 hv3 hk3 hle3
      have hm3 : k3 ∈ jamList vs ks := mem_jamList.mpr ⟨i3, v3, hv3, hk3, hle3⟩
      simpa [hje] using seriesMin_le hm3
  · intro hall
    have hnil : jamList vs ks = [] := by
      refine List.eq_nil_iff_forall_not_mem.mpr fun a ha => ?_
      rcases mem_jamList.mp ha with ⟨i2, v2, h1, h2, h3⟩
      exact hall i2 v2 h1 h3
    have hje : (jamList vs ks).isEmpty = true := by rw [hnil]; rfl
    have hkne : ks ≠ [] := by
      intro h0
      rw [h0] at hlk
      exact hne (List.length_eq_zero.mp hlk.symm)
    constructor
    · simpa [hje] using seriesMax_mem hkne
    · intro x hx
      simpa [hje] using le_seriesMax hx

theorem C2_witness :
    dfW.col "k" = some [10, 20] ∧ dfW.col "v" = some [50, 25] ∧
    dfW.col "q" = some [100, 500] ∧ dfW.isEmpty = false ∧
    (∃ s : Stats, computeStats dfW = Except.ok s ∧
      ((∃ i v, ([50, 25] : List ℚ).get? i = some v ∧ v ≤ (1 : ℚ) / 10) →
        (∃ i v, ([50, 25] : List ℚ).get? i = some v ∧ v ≤ (1 : ℚ) / 10 ∧
          ([10, 20] : List ℚ).get? i = some s.k_jam) ∧
        ∀ i v k, ([50, 25] : List ℚ).get? i = some v →
          ([10, 20] : List ℚ).get? i = some k →
          v ≤ (1 : ℚ) / 10 → s.k_jam ≤ k) ∧
      ((∀ i v, ([50, 25] : List ℚ).get? i = some v → ¬ v ≤ (1 : ℚ) / 10) →
        s.k_jam ∈ ([10, 20] : List ℚ) ∧
        ∀ x ∈ ([10, 20] : List ℚ), x ≤ s.k_jam)) :=
  ⟨by decide, by decide, by decide, by decide,
   C2_jam_density dfW [10, 20] [50, 25] [100, 500]
     (by decide) (by decide) (by decide) rfl rfl (by decide) (by decide)⟩

/-- C3: For every non-empty input table, the free-flow-speed statistic
computed by `plot_traffic_data` equals the v value of the first row of
the table. -/
theorem C3_free_flow_speed
    (df : DataFrame) (ks vs qs : List ℚ)
    (hk : df.col "k" = some ks) (hv : df.col "v" = some vs)
    (hq : df.col "q" = some qs)
    (hlk : ks.length = qs.length) (hlv : vs.length = qs.length)
    (hne : qs ≠ []) (hemp : df.isEmpty = false) :
    ∃ s : Stats, computeStats df = Except.ok s ∧
      vs.get? 0 = some s.v_free := by
  rcases computeStats_ok df ks vs qs hk hv hq hlk hlv hne hemp with
    ⟨i, k0, v0, hi, hg, hki, hv0, hcs⟩
  exact ⟨_, hcs, hv0⟩

theorem C3_witness :
    dfW.col "k" = some [10, 20] ∧ dfW.col "v" = some [50, 25] ∧
    dfW.col "q" = some [100, 500] ∧ dfW.isEmpty = false ∧
    (∃ s : Stats, computeStats dfW = Except.ok s ∧
      ([50, 25] : List ℚ).get? 0 = some s.v_free) :=
  ⟨by decide, by decide, by decide, by decide,
   C3_free_flow_speed dfW [10, 20] [50, 25] [100, 500]
     (by decide) (by decide) (by decide) rfl rfl (by decide) (by decide)⟩

/-- C4: For every scenario name such that the file
`output/<scenario_name>.csv` does not exist, `plot_traffic_data` returns
failure (`False`) and the process exits with code 1. -/
theorem C4_missing_file (fs : FS) (prog name : String)
    (h : fs.readFile (csv_file name) = none) :
    plot_traffic_data fs name = PlotOutcome.ret false fs ∧
    (run_script fs [prog, name]).1 = 1 := by
  have h2 : (fs.mkdir ["output"]).readFile (csv_file name) = none := h
  constructor
  · unfold plot_traffic_data
    rw [h]
  · simp [run_script, main, plot_traffic_data, h2]

theorem C4_witness :
    fsEmpty.readFile (csv_file "missing") = none ∧
    plot_traffic_data fsEmpty "missing" = PlotOutcome.ret false fsEmpty ∧
    (run_script fsEmpty ["quick_plot.py", "missing"]).1 = 1 :=
  ⟨rfl, C4_missing_file fsEmpty "quick_plot.py" "missing" rfl⟩

/-- C5: For every existing input file whose contents cannot be parsed as
a table (`pd.read_csv` raises, so no table with columns k, v, q is
obtained), `plot_traffic_data` returns failure (`False`) and does not
raise an exception to its caller.  (A file that parses as a table but
lacks one of the columns instead raises — that behaviour is C9.) -/
theorem C5_unparseable_file (fs : FS) (name : String) (f : File)
    (e : PyError)
    (hr : fs.readFile (csv_file name) = some f)
    (hp : read_csv f = Except.error e) :
    plot_traffic_data fs name = PlotOutcome.ret false fs := by
  simp [plot_traffic_data, hr, hp]

theorem C5_witness :
    fsBad.readFile (csv_file "sample") = some File.unreadable ∧
    read_csv File.unreadable = Except.error PyError.parseError ∧
    plot_traffic_data fsBad "sample" = PlotOutcome.ret false fsBad :=
  ⟨by decide, rfl,
   C5_unparseable_file fsBad "sample" File.unreadable PyError.parseError
     (by decide) rfl⟩

/-- C6: For every invocation whose argument count is not exactly one
positional argument, `main` returns 1 and the process exits with code 1;
for every invocation on which `plot_traffic_data` succeeds, the process
exits with code 0. -/
theorem C6_exit_codes (fs : FS) (argv : List String) (prog name : String)
    (fs2 : FS) :
    (argv.length ≠ 2 →
      main fs argv = MainOutcome.ret 1 fs ∧ run_script fs argv = (1, fs)) ∧
    (plot_traffic_data (fs.mkdir ["output"]) name = PlotOutcome.ret true fs2 →
      run_script fs [prog, name] = (0, fs2)) := by
  constructor
  · intro h
    constructor
    · unfold main
      rw [if_pos h]
    · unfold run_script main
      rw [if_pos h]
  · intro h
    simp [run_script, main, h]

theorem C6_witness :
    (([] : List String).length ≠ 2 ∧
      main fsEmpty [] = MainOutcome.ret 1 fsEmpty ∧
      run_script fsEmpty [] = (1, fsEmpty)) ∧
    (plot_traffic_data (fsGood.mkdir ["output"]) "sample" =
        PlotOutcome.ret true fsGoodRun ∧
      run_script fsGood ["quick_plot.py", "sample"] = (0, fsGoodRun)) :=
  ⟨⟨by decide,
    (C6_exit_codes fsEmpty [] "p" "x" fsEmpty).1 (by decide)⟩,
   ⟨rfl,
    (C6_exit_codes fsGood [] "quick_plot.py" "sample" fsGoodRun).2 rfl⟩⟩

/-- C7: For every scenario name, the only file `plot_traffic_data` reads
is `output/<scenario_name>.csv` (its behaviour depends on the filesystem
only through that file and the existence of the `output` directory), and
the only file it writes is `output/<scenario_name>_plot.png`; directories
and all other files are left unchanged. -/
theorem C7_frame (fs fsa fsb : FS) (name : String) (p : List String) :
    (p ≠ plot_file name →
      (plot_traffic_data fs name).toFS.files p = fs.files p) ∧
    (plot_traffic_data fs name).toFS.dirs = fs.dirs ∧
    (fsa.readFile (csv_file name) = fsb.readFile (csv_file name) →
      fsa.dirs ["output"] = fsb.dirs ["output"] →
      (plot_traffic_data fsa name).code = (plot_traffic_data fsb name).code) := by
  refine ⟨?_, ?_, ?_⟩
  · intro hp
    cases hb : fs.readFile (csv_file name) with
    | none => simp [plot_traffic_data, hb, PlotOutcome.toFS]
    | some f =>
      cases hc : read_csv f with
      | error e => simp [plot_traffic_data, hb, hc, PlotOutcome.toFS]
      | ok df =>
        cases hs : computeStats df with
        | error e => simp [plot_traffic_data, hb, hc, hs, PlotOutcome.toFS]
        | ok st =>
          cases hd : fs.dirs ["output"] with
          | false => simp [plot_traffic_data, hb, hc, hs, hd, PlotOutcome.toFS]
          | true =>
            simp [plot_traffic_data, hb, hc, hs, hd, PlotOutcome.toFS,
              FS.writeFile, hp]
  · cases hb : fs.readFile (csv_file name) with
    | none => simp [plot_traffic_data, hb, PlotOutcome.toFS]
    | some f =>
      cases hc : read_csv f with
      | error e => simp [plot_traffic_data, hb, hc, PlotOutcome.toFS]
      | ok df =>
        cases hs : computeStats df with
        | error e => simp [plot_traffic_data, hb, hc, hs, PlotOutcome.toFS]
        | ok st =>
          cases hd : fs.dirs ["output"] with
          | false => simp [plot_traffic_data, hb, hc, hs, hd, PlotOutcome.toFS]
          | true =>
            simp [plot_traffic_data, hb, hc, hs, hd, PlotOutcome.toFS,
              FS.writeFile]
  · intro hcsv hdirs
    cases hb : fsb.readFile (csv_file name) with
    | none =>
      simp [plot_traffic_data, hcsv, hb, PlotOutcome.code]
    | some f =>
      cases hc : read_csv f with
      | error e =>
        simp [plot_traffic_data, hcsv, hb, hc, PlotOutcome.code]
      | ok df =>
        cases hs : computeStats df with
        | error e =>
          simp [plot_traffic_data, hcsv, hb, hc, hs, PlotOutcome.code]
        | ok st =>
          cases hd : fsb.dirs ["output"] with
          | false =>
            rw [hd] at hdirs
            simp [plot_traffic_data, hcsv, hb, hc, hs, hd, hdirs,
              PlotOutcome.code]
          | true =>
            rw [hd] at hdirs
            simp [plot_traffic_data, hcsv, hb, hc, hs, hd, hdirs,
              PlotOutcome.code]

theorem C7_witness :
    (csv_file "sample" ≠ plot_file "sample" ∧
      (plot_traffic_data fsGood "sample").toFS.files (csv_file "sample") =
        fsGood.files (csv_file "sample")) ∧
    (plot_traffic_data fsGood "sample").toFS.dirs = fsGood.dirs ∧
    (plot_traffic_data fsGood "sample").code =
      (plot_traffic_data fsGood "sample").code :=
  ⟨⟨by decide,
    (C7_frame fsGood fsGood fsGood "sample" (csv_file "sample")).1
      (by decide)⟩,
   (C7_frame fsGood fsGood fsGood "sample" (csv_file "sample")).2.1,
   (C7_frame fsGood fsGood fsGood "sample" (csv_file "sample")).2.2 rfl rfl⟩

/-- C8: For every input on which `plot_traffic_data` returns failure
(missing file or unparseable file), no output PNG file is written: the
failing operation leaves the filesystem state unchanged. -/
theorem C8_failure_unchanged (fs : FS) (name : String)
    (h : fs.readFile (csv_file name) = none ∨
      ∃ f e, fs.readFile (csv_file name) = some f ∧
        read_csv f = Except.error e) :
    plot_traffic_data fs name = PlotOutcome.ret false fs ∧
    (plot_traffic_data fs name).toFS = fs := by
  have hret : plot_traffic_data fs name = PlotOutcome.ret false fs := by
    rcases h with h | ⟨f, e, hr, hp⟩
    · unfold plot_traffic_data
      rw [h]
    · simp [plot_traffic_data, hr, hp]
  exact ⟨hret, by rw [hret]; rfl⟩

theorem C8_witness :
    (fsBad.readFile (csv_file "sample") = none ∨
      ∃ f e, fsBad.readFile (csv_file "sample") = some f ∧
        read_csv f = Except.error e) ∧
    plot_traffic_data fsBad "sample" = PlotOutcome.ret false fsBad ∧
    (plot_traffic_data fsBad "sample").toFS = fsBad :=
  ⟨Or.inr ⟨File.unreadable, PyError.parseError, by decide, rfl⟩,
   C8_failure_unchanged fsBad "sample"
     (Or.inr ⟨File.unreadable, PyError.parseError, by decide, rfl⟩)⟩

/-- C9: For every existing input file that parses as a table but lacks one
of the columns q, v, or k (or has zero rows), `plot_traffic_data` raises
an exception instead of returning a boolean failure result; the exception
is caught only by the top-level handler, which exits with code 1. -/
theorem C9_bad_table_raises (fs : FS) (prog name : String) (df : DataFrame)
    (hr : fs.readFile (csv_file name) = some (File.csv df))
    (hrect : df.Rect)
    (hbad : df.col "q" = none ∨ df.col "k" = none ∨ df.col "v" = none ∨
      df.nRows = 0) :
    (∃ e, computeStats df = Except.error e) ∧
    plot_traffic_data fs name = PlotOutcome.exc fs ∧
    run_script fs [prog, name] = (1, fs.mkdir ["output"]) := by
  have hcs : ∃ e, computeStats df = Except.error e := by
    cases hq : df.col "q" with
    | none => exact ⟨PyError.keyError, by simp [computeStats, hq]⟩
    | some qs =>
      by_cases hz : qs = []
      · have hidx : idxmax qs = none := by rw [hz]; rfl
        exact ⟨PyError.valueError, by simp [computeStats, hq, hidx]⟩
      · have hqlen : qs.length = df.nRows := col_length hrect hq
        have hnr : df.nRows ≠ 0 := by
          rw [← hqlen]
          simpa [Nat.pos_iff_ne_zero] using List.length_pos.mpr hz
        rcases idxmax_spec hz with ⟨i, hi, hg⟩
        cases hk : df.col "k" with
        | none => exact ⟨PyError.keyError, by simp [computeStats, hq, hi, hk]⟩
        | some ks =>
          have hv : df.col "v" = none := by
            rcases hbad with h | h | h | h
            · rw [hq] at h; cases h
            · rw [hk] at h; cases h
            · exact h
            · exact absurd h hnr
          have hemp : df.isEmpty = false := by
            unfold DataFrame.isEmpty
            exact beq_eq_false_iff_ne.mpr hnr
          refine ⟨PyError.keyError, ?_⟩
          simp only [computeStats, hq, hi, hk, hemp, hv, Bool.false_eq_true,
            if_false]
          cases ks.get? i <;> rfl
  obtain ⟨e, he⟩ := hcs
  have hr2 : (fs.mkdir ["output"]).readFile (csv_file name) =
      some (File.csv df) := hr
  refine ⟨⟨e, he⟩, ?_, ?_⟩
  · unfold plot_traffic_data
    rw [hr]
    simp [read_csv, he]
  · simp [run_script, main, plot_traffic_data, hr2, read_csv, he]

theorem C9_witness :
    fsNoK.readFile (csv_file "sample") = some (File.csv dfNoK) ∧
    dfNoK.col "k" = none ∧
    ((∃ e, computeStats dfNoK = Except.error e) ∧
      plot_traffic_data fsNoK "sample" = PlotOutcome.exc fsNoK ∧
      run_script fsNoK ["quick_plot.py", "sample"] =
        (1, fsNoK.mkdir ["output"])) :=
  ⟨by decide, by decide,
   C9_bad_table_raises fsNoK "quick_plot.py" "sample" dfNoK (by decide)
     (by unfold DataFrame.Rect; decide) (Or.inr (Or.inl (by decide)))⟩

/-- C10: For every invocation of `main` with exactly one positional
argument, the `output` directory is created (and hence exists in the state
passed to `plot_traffic_data`); when the directory was absent on a
well-formed filesystem, the only failure is the missing-file one: `main`
returns 1 through `plot_traffic_data` returning `False`, not through a
distinct error. -/
theorem C10_output_dir_created (fs : FS) (prog name : String) :
    (fs.mkdir ["output"]).dirs ["output"] = true ∧
    (fs.WF → fs.dirs ["output"] = false →
      fs.readFile (csv_file name) = none ∧
      main fs [prog, name] = MainOutcome.ret 1 (fs.mkdir ["output"]) ∧
      (run_script fs [prog, name]).1 = 1) := by
  constructor
  · simp [FS.mkdir]
  · intro hwf hdir
    have hnone : fs.readFile (csv_file name) = none := by
      cases hcase : fs.files ["output", name ++ ".csv"] with
      | none => exact hcase
      | some f =>
        have hd := hwf (name ++ ".csv") (by rw [hcase]; rfl)
        rw [hd] at hdir
        cases hdir
    have h2 : (fs.mkdir ["output"]).readFile (csv_file name) = none := hnone
    refine ⟨hnone, ?_, ?_⟩
    · simp [main, plot_traffic_data, h2]
    · simp [run_script, main, plot_traffic_data, h2]

theorem C10_witness :
    (fsEmpty.mkdir ["output"]).dirs ["output"] = true ∧
    fsEmpty.dirs ["output"] = false ∧
    fsEmpty.readFile (csv_file "sample") = none ∧
    main fsEmpty ["quick_plot.py", "sample"] =
      MainOutcome.ret 1 (fsEmpty.mkdir ["output"]) ∧
    (run_script fsEmpty ["quick_plot.py", "sample"]).1 = 1 :=
  have hwf : fsEmpty.WF := fun s h => by simp [fsEmpty] at h
  ⟨(C10_output_dir_created fsEmpty "quick_plot.py" "sample").1, rfl,
   (C10_output_dir_created fsEmpty "quick_plot.py" "sample").2 hwf rfl⟩

end QuickPlot
